import Mathlib

/-!
Verification of `vite-plugin-icons-spritesheet` (src/index.ts).

The development shallowly embeds the plugin's transformation pipeline:

* `fileNameToCamelCase`, identifier derivation (`fileNameToCamelCase(file.replace(/\.svg$/, ""))`);
* the per-file symbol normalisation performed inside `generateSvgSprite`
  (rename the root tag to `symbol`, set `id`, remove `xmlns`, `xmlns:xlink`,
  `version`, `width`, `height`, serialize, trim);
* sprite composition (`[...].join("\n")` with the fixed wrapper lines);
* `generateTypes` (the `types.ts` manifest text);
* `writeIfChanged` (read, byte-compare, conditional overwrite plus notification);
* the orchestration in `generateIcons`, including the `path.relative`-based
  working-directory handling and the `mkdir(outputDirRelative)` call.

External collaborators (glob discovery, `node-html-parser`, the real
filesystem) are modelled at their narrow interface: discovery yields a list of
relative file names, each paired with the result of `parse(input).querySelector("svg")`
(`Option Element`, `none` when no root svg tag is found), and the filesystem is
a map from paths to file contents.  JavaScript string primitives used by the
source (`split("-")`, `charAt(0).toUpperCase() + slice(1)`, `trim()`, the
falsiness test used by `.filter(Boolean)`) are modelled over `List Char`.
-/

set_option maxRecDepth 8000

namespace IconsSpritesheet

/-- JS `word.charAt(0).toUpperCase() + word.slice(1)` over the character list
of a word (ASCII-faithful model of `toUpperCase` on one character). -/
def capitalizeChars : List Char → List Char
  | [] => []
  | c :: rest => c.toUpper :: rest

/-- JS `fileName.split("-")`: split a character list on the literal hyphen.
`""` splits to `[""]`, separators at the ends produce empty segments. -/
def splitOnHyphen : List Char → List (List Char)
  | [] => [[]]
  | c :: rest =>
    match splitOnHyphen rest with
    | [] => [[]]
    | w :: ws => if c = '-' then [] :: w :: ws else (c :: w) :: ws

/-- `fileNameToCamelCase` from src/index.ts:
split on `-`, capitalize the first character of each word, join with `""`. -/
def fileNameToCamelCase (fileName : String) : String :=
  let words := splitOnHyphen fileName.data
  let capitalizedWords := words.map capitalizeChars
  String.mk capitalizedWords.flatten

/-- JS `file.replace(/\.svg$/, "")` over a character list: drop a trailing
`.svg` when present. -/
def stripSvgExtChars (cs : List Char) : List Char :=
  if cs.reverse.take 4 = ['g', 'v', 's', '.'] then (cs.reverse.drop 4).reverse else cs

/-- JS `file.replace(/\.svg$/, "")`. -/
def stripSvgExt (s : String) : String :=
  String.mk (stripSvgExtChars s.data)

/-- The identifier the plugin derives for a discovered file: in
`generateIcons` and `generateSvgSprite` the source computes
`fileNameToCamelCase(file.replace(/\.svg$/, ""))` on the glob-relative path. -/
def deriveId (file : String) : String :=
  fileNameToCamelCase (stripSvgExt file)

/-- The final path component of a relative path (everything after the last
slash).  Used only to state the spec's reading of identifier derivation. -/
def baseNameChars (cs : List Char) : List Char :=
  (cs.reverse.takeWhile (fun c => c ≠ '/')).reverse

/-- Modelled from the claim's words, not from the code: derivation applied to
"the file's base name with its extension removed".  Compared against
`deriveId`, which is what the source actually computes. -/
def claimDeriveId (file : String) : String :=
  fileNameToCamelCase (stripSvgExt (String.mk (baseNameChars file.data)))

/-- JS `s.trim()` over a character list (whitespace stripped at both ends). -/
def trimChars (cs : List Char) : List Char :=
  ((cs.dropWhile Char.isWhitespace).reverse.dropWhile Char.isWhitespace).reverse

/-- JS `s.trim()`. -/
def jsTrim (s : String) : String :=
  String.mk (trimChars s.data)

/-- JS falsiness of a string (`Boolean(s)` is `false` exactly for `""`);
this is the predicate `.filter(Boolean)` applies to the kept strings. -/
def jsFalsy (s : String) : Bool :=
  s.data.isEmpty

/-- Model of a parsed markup element as handled through `node-html-parser`:
tag name, attributes in insertion order, and the (serialized) inner markup. -/
structure Element where
  tag : String
  attrs : List (String × String)
  inner : String
deriving DecidableEq

/-- `element.getAttribute(key)`: first binding of the key. -/
def getAttribute : List (String × String) → String → Option String
  | [], _ => none
  | (k, v) :: rest, key => if k = key then some v else getAttribute rest key

/-- `element.setAttribute(key, value)`: replace in place when present,
append otherwise. -/
def setAttribute : List (String × String) → String → String → List (String × String)
  | [], key, v => [(key, v)]
  | (k, w) :: rest, key, v =>
    if k = key then (key, v) :: rest else (k, w) :: setAttribute rest key v

/-- `element.removeAttribute(key)`. -/
def removeAttribute : List (String × String) → String → List (String × String)
  | [], _ => []
  | (k, w) :: rest, key =>
    if k = key then removeAttribute rest key else (k, w) :: removeAttribute rest key

/-- The serialization performed by the parser's `toString()`:
`<tag k="v" ...>inner</tag>`. -/
def attrsToString (attrs : List (String × String)) : String :=
  String.join (attrs.map (fun p => " " ++ p.1 ++ "=\"" ++ p.2 ++ "\""))

/-- `svg.toString()` for the (single-root) elements the plugin manipulates. -/
def serializeElement (e : Element) : String :=
  "<" ++ e.tag ++ attrsToString e.attrs ++ ">" ++ e.inner ++ "</" ++ e.tag ++ ">"

/-- The mutations `generateSvgSprite` applies to the root svg element of one
icon file, in source order: `svg.tagName = "symbol"`, `setAttribute("id", fileName)`,
then `removeAttribute` for `xmlns`, `xmlns:xlink`, `version`, `width`, `height`. -/
def normalizedSymbol (iconId : String) (svg : Element) : Element :=
  { tag := "symbol"
    attrs :=
      removeAttribute (removeAttribute (removeAttribute (removeAttribute (removeAttribute
        (setAttribute svg.attrs "id" iconId) "xmlns") "xmlns:xlink") "version") "width") "height"
    inner := svg.inner }

/-- One task of the `Promise.all` in `generateSvgSprite`: derive the id from
the file name, and if the parsed content has a root svg element, emit
`svg.toString().trim()` after the mutations; otherwise warn and contribute
nothing (`undefined`, modelled as `none`). -/
def symbolOf (file : String) (parsed : Option Element) : Option String :=
  match parsed with
  | none => none
  | some svg => some (jsTrim (serializeElement (normalizedSymbol (deriveId file) svg)))

/-- JS `array.filter(Boolean)` on the `Promise.all` results: drops the
`undefined` entries of skipped files (and any empty string). -/
def filterBoolean (xs : List (Option String)) : List String :=
  (xs.filterMap id).filter (fun s => !jsFalsy s)

/-- The warning `generateSvgSprite` logs for a file without a root svg tag. -/
def noSvgWarning (file : String) : String :=
  "⚠️ No SVG tag found in " ++ file

/-- The warnings emitted by one `generateSvgSprite` run, in file order. -/
def spriteWarningsOf (files : List (String × Option Element)) : List String :=
  (files.filter (fun f => f.2.isNone)).map (fun f => noSvgWarning f.1)

def xmlDeclLine : String := "<?xml version=\"1.0\" encoding=\"UTF-8\"?>"

def svgOpenLine : String :=
  "<svg xmlns=\"http://www.w3.org/2000/svg\" xmlns:xlink=\"http://www.w3.org/1999/xlink\" width=\"0\" height=\"0\">"

def defsOpenLine : String := "<defs>"

def defsCloseLine : String := "</defs>"

def svgCloseLine : String := "</svg>"

/-- The symbol fragments surviving `.filter(Boolean)`, in discovery order. -/
def spriteFragments (files : List (String × Option Element)) : List String :=
  filterBoolean (files.map (fun f => symbolOf f.1 f.2))

/-- The sprite text `generateSvgSprite` composes: the fixed wrapper lines and
the surviving fragments, joined with `"\n"`. -/
def generateSvgSpriteOutput (files : List (String × Option Element)) : String :=
  String.intercalate "\n"
    ([xmlDeclLine, svgOpenLine, defsOpenLine]
      ++ spriteFragments files
      ++ [defsCloseLine, svgCloseLine])

/-- The elements whose serializations are the sprite's symbol fragments
(the same computation as `symbolOf`, stopped before `toString().trim()`). -/
def spriteSymbolElements (files : List (String × Option Element)) : List Element :=
  files.filterMap (fun f => f.2.map (fun svg => normalizedSymbol (deriveId f.1) svg))

/-- The `id` attributes of the sprite's symbol elements, in order. -/
def spriteSymbolIds (files : List (String × Option Element)) : List String :=
  (spriteSymbolElements files).filterMap (fun e => getAttribute e.attrs "id")

/-- `files.map((file) => fileNameToCamelCase(file.replace(/\.svg$/, "")))`,
the names `generateIcons` hands to `generateTypes`. -/
def typeNames (files : List (String × Option Element)) : List String :=
  files.map (fun f => deriveId f.1)

/-- The manifest text `generateTypes` composes. -/
def generateTypesOutput (names : List String) : String :=
  String.intercalate "\n"
    (["// This file is generated by icon spritesheet generator", "",
      "export type IconName ="]
      ++ names.map (fun name => "  | \"" ++ name ++ "\"")
      ++ [""]
      ++ ["export const iconNames = ["]
      ++ names.map (fun name => "  \"" ++ name ++ "\",")
      ++ ["] as const", ""])

/-- `writeIfChanged` from src/index.ts.  `currentContent?` is the outcome of
`fs.readFile` (`none` models any read failure, including a missing file).
The first component is the content written (`none` when no write happens) and
the second records whether the notification was logged. -/
def writeIfChanged (currentContent? : Option String) (newContent : String) :
    Option String × Bool :=
  match currentContent? with
  | some currentContent =>
    if currentContent ≠ newContent then (some newContent, true) else (none, false)
  | none => (some newContent, true)

/-- A filesystem for the output artifacts: paths (component lists) to text. -/
def Fs : Type := List String → Option String

/-- Apply one `writeIfChanged` call to the filesystem, returning the new
filesystem and the list of writes performed (empty or a singleton). -/
def runWrite (fs : Fs) (p : List String) (c : String) :
    Fs × List (List String × String) :=
  match writeIfChanged (fs p) c with
  | (some w, _) => (fun q => if q = p then some w else fs q, [(p, w)])
  | (none, _) => (fs, [])

/-- Node `path.relative(base, target)` on absolute paths given as component
lists: strip the common prefix, then one `..` per remaining base component. -/
def pathRelative : List String → List String → List String
  | [], ts => ts
  | b :: bs, [] => List.replicate (b :: bs).length ".."
  | b :: bs, t :: ts =>
    if b = t then pathRelative bs ts
    else List.replicate (b :: bs).length ".." ++ (t :: ts)

/-- Resolution of a (possibly `..`-prefixed) relative path against an
absolute base: the directory the operating system actually touches when a
relative path is passed to `fs.mkdir`. -/
def pathResolve (base : List String) : List String → List String
  | [] => base
  | c :: rest =>
    if c = ".." then pathResolve base.dropLast rest else pathResolve (base ++ [c]) rest

/-- Observable outcome of one `generateIcons` run. `inputDirRelative` and
`outputDirRelative` are the `path.relative` texts used in console messages;
`mkdirTarget` is the directory the `mkdir(outputDirRelative, { recursive: true })`
call creates (the relative argument resolved against the process working
directory); `spriteTarget`/`typesTarget` are the `outputPath` arguments passed
to `generateSvgSprite`/`generateTypes`; `writes` are the file writes actually
performed, in order. -/
structure RunResult where
  warnedNoFiles : Bool
  inputDirRelative : List String
  outputDirRelative : List String
  mkdirTarget : Option (List String)
  spriteTarget : Option (List String)
  typesTarget : Option (List String)
  spriteWarnings : List String
  writes : List (List String × String)
  fs : Fs

/-- `generateIcons` from src/index.ts.  `withTypes?`/`fileName?`/`cwd?` model
the optional parameters with their destructuring defaults (`false`,
`"sprite.svg"`, `process.cwd()`); `processCwd` models `process.cwd()`;
`files` is the glob result (relative names) paired with each file's parsed
content (`parse(input).querySelector("svg")`); `fs0` is the on-disk state of
the output artifacts consulted by `writeIfChanged`. -/
def generateIcons (withTypes? : Option Bool) (inputDir outputDir : List String)
    (fileName? : Option String) (cwd? : Option (List String)) (processCwd : List String)
    (files : List (String × Option Element)) (fs0 : Fs) : RunResult :=
  let withTypes := withTypes?.getD false
  let fileName := fileName?.getD "sprite.svg"
  let cwdToUse := cwd?.getD processCwd
  let inputDirRelative := pathRelative cwdToUse inputDir
  let outputDirRelative := pathRelative cwdToUse outputDir
  if files.length = 0 then
    { warnedNoFiles := true
      inputDirRelative := inputDirRelative
      outputDirRelative := outputDirRelative
      mkdirTarget := none
      spriteTarget := none
      typesTarget := none
      spriteWarnings := []
      writes := []
      fs := fs0 }
  else
    let outputPath := outputDir ++ [fileName]
    let spriteRun := runWrite fs0 outputPath (generateSvgSpriteOutput files)
    if withTypes then
      let typesPath := outputDir ++ ["types.ts"]
      let typesRun := runWrite spriteRun.1 typesPath (generateTypesOutput (typeNames files))
      { warnedNoFiles := false
        inputDirRelative := inputDirRelative
        outputDirRelative := outputDirRelative
        mkdirTarget := some (pathResolve processCwd outputDirRelative)
        spriteTarget := some outputPath
        typesTarget := some typesPath
        spriteWarnings := spriteWarningsOf files
        writes := spriteRun.2 ++ typesRun.2
        fs := typesRun.1 }
    else
      { warnedNoFiles := false
        inputDirRelative := inputDirRelative
        outputDirRelative := outputDirRelative
        mkdirTarget := some (pathResolve processCwd outputDirRelative)
        spriteTarget := some outputPath
        typesTarget := none
        spriteWarnings := spriteWarningsOf files
        writes := spriteRun.2
        fs := spriteRun.1 }

/-! ### Concurrency model

`generateSvgSprite` issues one asynchronous task per file and awaits them
with `Promise.all`, which delivers the results indexed by task position, not
by completion time.  `runTasksInOrder` executes the tasks in an arbitrary
completion order, storing each result at its own index; a permutation of the
index range models one possible completion schedule. -/

/-- The task of file `i`: read and normalize one icon. -/
def taskOf (files : List (String × Option Element)) (i : Nat) : Option String :=
  match files[i]? with
  | some f => symbolOf f.1 f.2
  | none => none

/-- Record the result of task `i` at slot `i`. -/
def scheduleStep (task : Nat → Option String) (acc : List (Option (Option String)))
    (i : Nat) : List (Option (Option String)) :=
  acc.set i (some (task i))

/-- Run the `n` tasks in the given completion order; slot `j` holds `none`
until task `j` completes. -/
def runTasksInOrder (n : Nat) (task : Nat → Option String) (order : List Nat) :
    List (Option (Option String)) :=
  order.foldl (scheduleStep task) (List.replicate n none)

/-- The sprite text obtained when the per-file tasks complete in the given
order: gather the slots by index, then compose as `generateSvgSprite` does. -/
def spriteFromSchedule (files : List (String × Option Element)) (order : List Nat) :
    String :=
  let results := (runTasksInOrder files.length (taskOf files) order).map (fun r => r.getD none)
  String.intercalate "\n"
    ([xmlDeclLine, svgOpenLine, defsOpenLine]
      ++ filterBoolean results
      ++ [defsCloseLine, svgCloseLine])

/-! ### Attribute lemmas -/

theorem getAttribute_setAttribute_self (attrs : List (String × String)) (key v : String) :
    getAttribute (setAttribute attrs key v) key = some v := by
  induction attrs with
  | nil => simp [setAttribute, getAttribute]
  | cons p rest ih =>
    obtain ⟨k, w⟩ := p
    by_cases h : k = key
    · simp [setAttribute, h, getAttribute]
    · simp [setAttribute, h, getAttribute, ih]

theorem getAttribute_setAttribute_ne (attrs : List (String × String)) (key v key' : String)
    (h : key' ≠ key) :
    getAttribute (setAttribute attrs key v) key' = getAttribute attrs key' := by
  induction attrs with
  | nil => simp [setAttribute, getAttribute, Ne.symm h]
  | cons p rest ih =>
    obtain ⟨k, w⟩ := p
    by_cases hk : k = key
    · subst hk
      simp [setAttribute, getAttribute, Ne.symm h]
    · simp [setAttribute, hk, getAttribute, ih]

theorem getAttribute_removeAttribute_ne (attrs : List (String × String)) (key key' : String)
    (h : key' ≠ key) :
    getAttribute (removeAttribute attrs key) key' = getAttribute attrs key' := by
  induction attrs with
  | nil => simp [removeAttribute]
  | cons p rest ih =>
    obtain ⟨k, w⟩ := p
    by_cases hk : k = key
    · subst hk
      simp [removeAttribute, getAttribute, Ne.symm h, ih]
    · simp [removeAttribute, hk, getAttribute, ih]

theorem getAttribute_removeAttribute_self (attrs : List (String × String)) (key : String) :
    getAttribute (removeAttribute attrs key) key = none := by
  induction attrs with
  | nil => simp [removeAttribute, getAttribute]
  | cons p rest ih =>
    obtain ⟨k, w⟩ := p
    by_cases hk : k = key
    · simp [removeAttribute, hk, ih]
    · simp [removeAttribute, hk, getAttribute, ih]

theorem normalizedSymbol_id (iconId : String) (svg : Element) :
    getAttribute (normalizedSymbol iconId svg).attrs "id" = some iconId := by
  simp only [normalizedSymbol]
  rw [getAttribute_removeAttribute_ne _ _ _ (by decide),
    getAttribute_removeAttribute_ne _ _ _ (by decide),
    getAttribute_removeAttribute_ne _ _ _ (by decide),
    getAttribute_removeAttribute_ne _ _ _ (by decide),
    getAttribute_removeAttribute_ne _ _ _ (by decide),
    getAttribute_setAttribute_self]

/-! ### Fragments are never empty strings -/

theorem serializeElement_data (e : Element) :
    (serializeElement e).data
      = '<' :: (e.tag ++ attrsToString e.attrs ++ ">" ++ e.inner ++ "</" ++ e.tag ++ ">").data := by
  simp [serializeElement, String.data_append]

theorem trimChars_lt_cons_ne_nil (l : List Char) : trimChars ('<' :: l) ≠ [] := by
  have hw : Char.isWhitespace '<' = false := by decide
  simp only [trimChars]
  have h1 : ('<' :: l).dropWhile Char.isWhitespace = '<' :: l := by
    simp [List.dropWhile_cons, hw]
  rw [h1]
  intro h
  rw [List.reverse_eq_nil_iff, List.dropWhile_eq_nil_iff] at h
  have := h '<' (by simp)
  rw [hw] at this
  exact Bool.false_ne_true this

theorem jsFalsy_trim_serialize (e : Element) :
    jsFalsy (jsTrim (serializeElement e)) = false := by
  have hne : trimChars (serializeElement e).data ≠ [] := by
    rw [serializeElement_data]
    exact trimChars_lt_cons_ne_nil _
  show (trimChars (serializeElement e).data).isEmpty = false
  cases h : trimChars (serializeElement e).data with
  | nil => exact absurd h hne
  | cons a l => rfl

theorem spriteFragments_cons_none (name : String) (rest : List (String × Option Element)) :
    spriteFragments ((name, none) :: rest) = spriteFragments rest := by
  simp [spriteFragments, filterBoolean, symbolOf]

theorem spriteFragments_cons_some (name : String) (svg : Element)
    (rest : List (String × Option Element)) :
    spriteFragments ((name, some svg) :: rest)
      = jsTrim (serializeElement (normalizedSymbol (deriveId name) svg)) :: spriteFragments rest := by
  simp [spriteFragments, filterBoolean, symbolOf, List.filter_cons, jsFalsy_trim_serialize]

theorem spriteFragments_length (files : List (String × Option Element)) :
    (spriteFragments files).length + (files.filter (fun f => f.2.isNone)).length
      = files.length := by
  induction files with
  | nil => rfl
  | cons f rest ih =>
    obtain ⟨name, parsed⟩ := f
    cases parsed with
    | none =>
      have hstep : List.filter (fun f => f.2.isNone) ((name, (none : Option Element)) :: rest)
          = (name, none) :: List.filter (fun f => f.2.isNone) rest := by
        simp [List.filter_cons]
      rw [spriteFragments_cons_none, hstep]
      simp only [List.length_cons]
      omega
    | some svg =>
      have hstep : List.filter (fun f => f.2.isNone) ((name, some svg) :: rest)
          = List.filter (fun f => f.2.isNone) rest := by
        simp [List.filter_cons]
      rw [spriteFragments_cons_some, hstep]
      simp only [List.length_cons]
      omega

/-- The sprite's fragment list is exactly the serialization of its symbol
elements, in discovery order. -/
theorem spriteFragments_eq_serialized_elements (files : List (String × Option Element)) :
    spriteFragments files
      = (spriteSymbolElements files).map (fun e => jsTrim (serializeElement e)) := by
  induction files with
  | nil => rfl
  | cons f rest ih =>
    obtain ⟨name, parsed⟩ := f
    cases parsed with
    | none =>
      rw [spriteFragments_cons_none, ih]
      simp [spriteSymbolElements]
    | some svg =>
      rw [spriteFragments_cons_some, ih]
      simp [spriteSymbolElements]

/-! ### Writer lemmas -/

theorem runWrite_read_self (fs : Fs) (p : List String) (c : String) :
    (runWrite fs p c).1 p = some c := by
  cases h : fs p with
  | none => simp [runWrite, writeIfChanged, h]
  | some cur =>
    by_cases hc : cur = c
    · subst hc
      simp [runWrite, writeIfChanged, h]
    · simp [runWrite, writeIfChanged, h, hc]

theorem runWrite_read_other (fs : Fs) (p q : List String) (c : String) (h : q ≠ p) :
    (runWrite fs p c).1 q = fs q := by
  cases hp : fs p with
  | none => simp [runWrite, writeIfChanged, hp, h]
  | some cur =>
    by_cases hc : cur = c
    · subst hc
      simp [runWrite, writeIfChanged, hp]
    · simp [runWrite, writeIfChanged, hp, hc, h]

theorem runWrite_noop (fs : Fs) (p : List String) (c : String) (h : fs p = some c) :
    runWrite fs p c = (fs, []) := by
  simp [runWrite, writeIfChanged, h]

/-! ### Schedule lemmas -/

theorem length_foldl_scheduleStep (task : Nat → Option String) (order : List Nat)
    (acc : List (Option (Option String))) :
    (order.foldl (scheduleStep task) acc).length = acc.length := by
  induction order generalizing acc with
  | nil => rfl
  | cons i rest ih =>
    rw [List.foldl_cons, ih]
    simp [scheduleStep]

theorem getElem?_foldl_scheduleStep (task : Nat → Option String) (order : List Nat)
    (acc : List (Option (Option String))) (j : Nat) (hj : j < acc.length) :
    (order.foldl (scheduleStep task) acc)[j]? =
      if j ∈ order then some (some (task j)) else acc[j]? := by
  induction order generalizing acc with
  | nil => simp
  | cons i rest ih =>
    rw [List.foldl_cons]
    have hj' : j < (scheduleStep task acc i).length := by simpa [scheduleStep] using hj
    rw [ih _ hj']
    by_cases hr : j ∈ rest
    · simp [hr]
    · by_cases hij : i = j
      · subst hij
        rw [if_neg hr, if_pos (List.mem_cons_self i rest)]
        simp [scheduleStep, List.getElem?_set_eq_of_lt _ hj]
      · have hnotin : j ∉ i :: rest := by
          intro hm
          rcases List.mem_cons.mp hm with he | hm2
          · exact hij he.symm
          · exact hr hm2
        rw [if_neg hr, if_neg hnotin]
        simp [scheduleStep, List.getElem?_set_ne hij]

theorem runTasksInOrder_perm (files : List (String × Option Element)) (order : List Nat)
    (h : order.Perm (List.range files.length)) :
    (runTasksInOrder files.length (taskOf files) order).map (fun r => r.getD none)
      = files.map (fun f => symbolOf f.1 f.2) := by
  apply List.ext_getElem?
  intro j
  rw [List.getElem?_map, List.getElem?_map]
  by_cases hj : j < files.length
  · have hmem : j ∈ order := h.mem_iff.mpr (List.mem_range.mpr hj)
    have hacc : j < (List.replicate files.length (none : Option (Option String))).length := by
      simpa using hj
    rw [runTasksInOrder, getElem?_foldl_scheduleStep _ _ _ _ hacc, if_pos hmem]
    rw [List.getElem?_eq_getElem hj]
    simp [taskOf, List.getElem?_eq_getElem hj]
  · have h1 : (runTasksInOrder files.length (taskOf files) order).length = files.length := by
      simp [runTasksInOrder, length_foldl_scheduleStep]
    rw [List.getElem?_eq_none (by omega), List.getElem?_eq_none (by omega)]
    rfl

/-! ### Split/join lemmas for identifier derivation -/

theorem splitOnHyphen_ne_nil (cs : List Char) : splitOnHyphen cs ≠ [] := by
  induction cs with
  | nil => simp [splitOnHyphen]
  | cons c rest ih =>
    simp only [splitOnHyphen]
    cases hsp : splitOnHyphen rest with
    | nil => simp
    | cons w ws => by_cases h : c = '-' <;> simp [h]

theorem splitOnHyphen_no_hyphen (cs : List Char) (h : '-' ∉ cs) : splitOnHyphen cs = [cs] := by
  induction cs with
  | nil => rfl
  | cons c rest ih =>
    have hc : c ≠ '-' := fun e => h (e ▸ List.mem_cons_self c rest)
    have hr : '-' ∉ rest := fun m => h (List.mem_cons_of_mem _ m)
    simp only [splitOnHyphen, ih hr]
    simp [hc]

theorem splitOnHyphen_append (w t : List Char) (h : '-' ∉ w) :
    splitOnHyphen (w ++ '-' :: t) = w :: splitOnHyphen t := by
  induction w with
  | nil =>
    simp only [List.nil_append, splitOnHyphen]
    cases hsp : splitOnHyphen t with
    | nil => exact absurd hsp (splitOnHyphen_ne_nil t)
    | cons a as => simp
  | cons c w' ih =>
    have hc : c ≠ '-' := fun e => h (e ▸ List.mem_cons_self c w')
    have hw : '-' ∉ w' := fun m => h (List.mem_cons_of_mem _ m)
    simp only [List.cons_append, splitOnHyphen, List.append_eq]
    rw [ih hw]
    simp [hc]

/-- Hyphen-joining of segments, the inverse construction the spec describes
("hyphen-separated alphanumeric segments" of a base name). -/
def joinWithHyphen : List (List Char) → List Char
  | [] => []
  | [w] => w
  | w :: ws => w ++ '-' :: joinWithHyphen ws

theorem splitOnHyphen_joinWithHyphen (segs : List (List Char)) (h1 : segs ≠ [])
    (h2 : ∀ w ∈ segs, '-' ∉ w) : splitOnHyphen (joinWithHyphen segs) = segs := by
  induction segs with
  | nil => exact absurd rfl h1
  | cons w ws ih =>
    cases ws with
    | nil => exact splitOnHyphen_no_hyphen w (h2 w (by simp))
    | cons w' ws' =>
      have hj : joinWithHyphen (w :: w' :: ws') = w ++ '-' :: joinWithHyphen (w' :: ws') := rfl
      rw [hj, splitOnHyphen_append _ _ (h2 w (by simp)),
        ih (by simp) (fun x hx => h2 x (by simp [hx]))]

theorem stripSvgExtChars_append (cs : List Char) :
    stripSvgExtChars (cs ++ ['.', 's', 'v', 'g']) = cs := by
  simp [stripSvgExtChars]

/-! ### Unfolding lemmas for `generateIcons` -/

theorem generateIcons_nonempty_noTypes (withTypes? : Option Bool)
    (inputDir outputDir : List String) (fileName? : Option String)
    (cwd? : Option (List String)) (processCwd : List String)
    (files : List (String × Option Element)) (fs0 : Fs)
    (h : ¬ files.length = 0) (hw : withTypes?.getD false = false) :
    generateIcons withTypes? inputDir outputDir fileName? cwd? processCwd files fs0 =
      { warnedNoFiles := false
        inputDirRelative := pathRelative (cwd?.getD processCwd) inputDir
        outputDirRelative := pathRelative (cwd?.getD processCwd) outputDir
        mkdirTarget := some (pathResolve processCwd (pathRelative (cwd?.getD processCwd) outputDir))
        spriteTarget := some (outputDir ++ [fileName?.getD "sprite.svg"])
        typesTarget := none
        spriteWarnings := spriteWarningsOf files
        writes := (runWrite fs0 (outputDir ++ [fileName?.getD "sprite.svg"])
          (generateSvgSpriteOutput files)).2
        fs := (runWrite fs0 (outputDir ++ [fileName?.getD "sprite.svg"])
          (generateSvgSpriteOutput files)).1 } := by
  simp only [generateIcons]
  rw [if_neg h, hw]
  simp

theorem generateIcons_nonempty_types (withTypes? : Option Bool)
    (inputDir outputDir : List String) (fileName? : Option String)
    (cwd? : Option (List String)) (processCwd : List String)
    (files : List (String × Option Element)) (fs0 : Fs)
    (h : ¬ files.length = 0) (hw : withTypes?.getD false = true) :
    generateIcons withTypes? inputDir outputDir fileName? cwd? processCwd files fs0 =
      { warnedNoFiles := false
        inputDirRelative := pathRelative (cwd?.getD processCwd) inputDir
        outputDirRelative := pathRelative (cwd?.getD processCwd) outputDir
        mkdirTarget := some (pathResolve processCwd (pathRelative (cwd?.getD processCwd) outputDir))
        spriteTarget := some (outputDir ++ [fileName?.getD "sprite.svg"])
        typesTarget := some (outputDir ++ ["types.ts"])
        spriteWarnings := spriteWarningsOf files
        writes := (runWrite fs0 (outputDir ++ [fileName?.getD "sprite.svg"])
            (generateSvgSpriteOutput files)).2
          ++ (runWrite (runWrite fs0 (outputDir ++ [fileName?.getD "sprite.svg"])
            (generateSvgSpriteOutput files)).1 (outputDir ++ ["types.ts"])
            (generateTypesOutput (typeNames files))).2
        fs := (runWrite (runWrite fs0 (outputDir ++ [fileName?.getD "sprite.svg"])
            (generateSvgSpriteOutput files)).1 (outputDir ++ ["types.ts"])
            (generateTypesOutput (typeNames files))).1 } := by
  simp only [generateIcons]
  rw [if_neg h, hw]
  simp

/-! ### Claim theorems -/

/-- C4 (confirmed): `writeIfChanged` performs no write and emits no
notification exactly when the existing read succeeds with content
byte-for-byte equal to the candidate; when the content differs or the read
fails for any reason (including a missing file), it overwrites with the full
candidate content and emits the notification. -/
theorem c4_idempotent_writer (currentContent? : Option String) (newContent : String) :
    (currentContent? = some newContent →
      writeIfChanged currentContent? newContent = (none, false)) ∧
    (currentContent? ≠ some newContent →
      writeIfChanged currentContent? newContent = (some newContent, true)) := by
  constructor
  · intro h
    subst h
    simp [writeIfChanged]
  · intro h
    cases currentContent? with
    | none => rfl
    | some c =>
      have hc : c ≠ newContent := fun e => h (by rw [e])
      simp [writeIfChanged, hc]

/-- Witness for C4 at concrete inputs: equal content is a no-op, differing
content and a failed read both overwrite and notify. -/
theorem c4_witness :
    writeIfChanged (some "a") "a" = (none, false) ∧
    writeIfChanged (some "a") "b" = (some "b", true) ∧
    writeIfChanged none "b" = (some "b", true) :=
  ⟨(c4_idempotent_writer (some "a") "a").1 rfl,
    (c4_idempotent_writer (some "a") "b").2 (by decide),
    (c4_idempotent_writer none "b").2 (by decide)⟩

/-- C7 (confirmed): with zero discovered files, `generateIcons` warns and
returns before `mkdir` and before any sprite/manifest work: no directory is
created, no write happens, and the filesystem is returned untouched. -/
theorem c7_empty_input_no_mutation (withTypes? : Option Bool)
    (inputDir outputDir : List String) (fileName? : Option String)
    (cwd? : Option (List String)) (processCwd : List String)
    (files : List (String × Option Element)) (fs0 : Fs) (h : files = []) :
    (generateIcons withTypes? inputDir outputDir fileName? cwd? processCwd files fs0).warnedNoFiles
        = true ∧
    (generateIcons withTypes? inputDir outputDir fileName? cwd? processCwd files fs0).mkdirTarget
        = none ∧
    (generateIcons withTypes? inputDir outputDir fileName? cwd? processCwd files fs0).spriteTarget
        = none ∧
    (generateIcons withTypes? inputDir outputDir fileName? cwd? processCwd files fs0).typesTarget
        = none ∧
    (generateIcons withTypes? inputDir outputDir fileName? cwd? processCwd files fs0).writes
        = [] ∧
    (generateIcons withTypes? inputDir outputDir fileName? cwd? processCwd files fs0).fs = fs0 := by
  subst h
  exact ⟨rfl, rfl, rfl, rfl, rfl, rfl⟩

/-- Witness for C7: a concrete empty-discovery run. -/
theorem c7_witness :
    (generateIcons (some true) ["r", "icons"] ["r", "out"] none none ["r"] []
        (fun _ => none)).warnedNoFiles = true ∧
    (generateIcons (some true) ["r", "icons"] ["r", "out"] none none ["r"] []
        (fun _ => none)).mkdirTarget = none ∧
    (generateIcons (some true) ["r", "icons"] ["r", "out"] none none ["r"] []
        (fun _ => none)).spriteTarget = none ∧
    (generateIcons (some true) ["r", "icons"] ["r", "out"] none none ["r"] []
        (fun _ => none)).typesTarget = none ∧
    (generateIcons (some true) ["r", "icons"] ["r", "out"] none none ["r"] []
        (fun _ => none)).writes = [] ∧
    (generateIcons (some true) ["r", "icons"] ["r", "out"] none none ["r"] []
        (fun _ => none)).fs = (fun _ => none) :=
  c7_empty_input_no_mutation (some true) ["r", "icons"] ["r", "out"] none none ["r"] []
    (fun _ => none) rfl

/-- C10 (confirmed): whenever the type-manifest flag is set the manifest is
written at the fixed path `outputDir/types.ts` — the output-filename option
does not appear in that path — while the sprite artifact goes to
`outputDir/fileName`, with `fileName` defaulting to `sprite.svg`. -/
theorem c10_fixed_manifest_path (withTypes? : Option Bool)
    (inputDir outputDir : List String) (fileName? : Option String)
    (cwd? : Option (List String)) (processCwd : List String)
    (files : List (String × Option Element)) (fs0 : Fs) (h : files ≠ []) :
    (generateIcons (some true) inputDir outputDir fileName? cwd? processCwd files fs0).typesTarget
        = some (outputDir ++ ["types.ts"]) ∧
    (generateIcons withTypes? inputDir outputDir fileName? cwd? processCwd files fs0).spriteTarget
        = some (outputDir ++ [fileName?.getD "sprite.svg"]) := by
  have hlen : ¬ files.length = 0 := by
    cases files with
    | nil => exact absurd rfl h
    | cons f rest => simp
  constructor
  · rw [generateIcons_nonempty_types (some true) inputDir outputDir fileName? cwd? processCwd
      files fs0 hlen rfl]
  · cases hw : withTypes?.getD false with
    | false =>
      rw [generateIcons_nonempty_noTypes withTypes? inputDir outputDir fileName? cwd? processCwd
        files fs0 hlen hw]
    | true =>
      rw [generateIcons_nonempty_types withTypes? inputDir outputDir fileName? cwd? processCwd
        files fs0 hlen hw]

/-- Witness for C10: a run with a custom sprite filename still writes the
manifest at `outputDir/types.ts`, and the sprite at the custom name. -/
theorem c10_witness :
    (generateIcons (some true) ["r", "icons"] ["r", "out"] (some "custom.svg") none ["r"]
        [("a.svg", some { tag := "svg", attrs := [], inner := "" })]
        (fun _ => none)).typesTarget = some (["r", "out"] ++ ["types.ts"]) ∧
    (generateIcons none ["r", "icons"] ["r", "out"] (some "custom.svg") none ["r"]
        [("a.svg", some { tag := "svg", attrs := [], inner := "" })]
        (fun _ => none)).spriteTarget
      = some (["r", "out"] ++ [(some "custom.svg").getD "sprite.svg"]) :=
  c10_fixed_manifest_path none ["r", "icons"] ["r", "out"] (some "custom.svg") none ["r"]
    [("a.svg", some { tag := "svg", attrs := [], inner := "" })] (fun _ => none) (by decide)

/-- C3 (counterexample): for a file nested in a subdirectory the code derives
the identifier from the whole glob-relative path (`file.replace(/\.svg$/, "")`),
not from the base name: `sub/close.svg` yields `Sub/close`, while the claim's
base-name derivation yields `Close`. -/
theorem c3_counterexample :
    deriveId "sub/close.svg" = "Sub/close" ∧
    claimDeriveId "sub/close.svg" = "Close" ∧
    deriveId "sub/close.svg" ≠ claimDeriveId "sub/close.svg" := by
  refine ⟨by decide, by decide, by decide⟩

/-- C3 (amended, confirmed): the derived identifier is computed from the
file's full path relative to the input root with the `.svg` extension
removed — not from its base name — by splitting on the literal hyphen,
uppercasing the first character of each segment, and concatenating with no
separator; as a plain function of the path it is deterministic. -/
theorem c3_identifier_derivation (segs : List (List Char)) (h1 : segs ≠ [])
    (h2 : ∀ w ∈ segs, '-' ∉ w) :
    deriveId (String.mk (joinWithHyphen segs ++ ['.', 's', 'v', 'g']))
      = String.mk ((segs.map capitalizeChars).flatten) := by
  have hstrip : stripSvgExt (String.mk (joinWithHyphen segs ++ ['.', 's', 'v', 'g']))
      = String.mk (joinWithHyphen segs) := by
    show String.mk (stripSvgExtChars (joinWithHyphen segs ++ ['.', 's', 'v', 'g'])) = _
    rw [stripSvgExtChars_append]
  show fileNameToCamelCase (stripSvgExt (String.mk (joinWithHyphen segs ++ ['.', 's', 'v', 'g'])))
      = _
  rw [hstrip]
  show String.mk (((splitOnHyphen (joinWithHyphen segs)).map capitalizeChars).flatten) = _
  rw [splitOnHyphen_joinWithHyphen segs h1 h2]

/-- Witness for C3 at `arrow-right.svg`: segments `arrow`, `right` yield
`ArrowRight`. -/
theorem c3_witness :
    deriveId (String.mk (joinWithHyphen [['a', 'r', 'r', 'o', 'w'], ['r', 'i', 'g', 'h', 't']]
        ++ ['.', 's', 'v', 'g']))
      = String.mk (([['a', 'r', 'r', 'o', 'w'], ['r', 'i', 'g', 'h', 't']].map
        capitalizeChars).flatten) ∧
    deriveId "arrow-right.svg" = "ArrowRight" :=
  ⟨c3_identifier_derivation [['a', 'r', 'r', 'o', 'w'], ['r', 'i', 'g', 'h', 't']]
      (by decide) (by decide),
    by decide⟩

/-- Sample input set for C6's witness: three discovered files of which
exactly the second has no root svg element. -/
def sampleFilesOneBad : List (String × Option Element) :=
  [("a.svg", some { tag := "svg", attrs := [], inner := "" }),
   ("b.svg", none),
   ("c-d.svg", some { tag := "svg", attrs := [], inner := "" })]

/-- C6 (confirmed): when exactly one discovered file lacks a root svg
element, the sprite receives exactly N−1 fragments and a warning naming the
defective file is emitted; skipping is per-file (the model of the run is a
total function — no fatal error path exists for a parse miss). -/
theorem c6_skip_isolation (files : List (String × Option Element))
    (h : (files.filter (fun f => f.2.isNone)).length = 1) :
    (spriteFragments files).length = files.length - 1 ∧
    ∃ f, f ∈ files ∧ f.2 = none ∧ spriteWarningsOf files = [noSvgWarning f.1] := by
  have hlen := spriteFragments_length files
  constructor
  · omega
  · obtain ⟨f, hf⟩ := List.length_eq_one.mp h
    have hmem : f ∈ files.filter (fun f => f.2.isNone) := by
      rw [hf]
      exact List.mem_cons_self f []
    refine ⟨f, (List.mem_filter.mp hmem).1, ?_, ?_⟩
    · exact Option.isNone_iff_eq_none.mp (List.mem_filter.mp hmem).2
    · simp [spriteWarningsOf, hf]

/-- Witness for C6: with three files, one defective, the sprite holds two
fragments and a single warning names the defective file. -/
theorem c6_witness :
    (spriteFragments sampleFilesOneBad).length = sampleFilesOneBad.length - 1 ∧
    ∃ f, f ∈ sampleFilesOneBad ∧ f.2 = none ∧
      spriteWarningsOf sampleFilesOneBad = [noSvgWarning f.1] :=
  c6_skip_isolation sampleFilesOneBad (by decide)

/-- C8 (confirmed): the composed sprite is exactly the newline-join of the
XML declaration, the zero-sized root svg open tag with the two namespace
declarations, `<defs>`, the surviving fragments in discovery order (skips
omitted), `</defs>`, and `</svg>`. -/
theorem c8_sprite_composition (files : List (String × Option Element)) :
    generateSvgSpriteOutput files =
      String.intercalate "\n"
        (["<?xml version=\"1.0\" encoding=\"UTF-8\"?>",
          "<svg xmlns=\"http://www.w3.org/2000/svg\" xmlns:xlink=\"http://www.w3.org/1999/xlink\" width=\"0\" height=\"0\">",
          "<defs>"]
          ++ files.filterMap (fun f => symbolOf f.1 f.2)
          ++ ["</defs>", "</svg>"]) := by
  have hfrags : spriteFragments files = files.filterMap (fun f => symbolOf f.1 f.2) := by
    unfold spriteFragments filterBoolean
    rw [List.filterMap_map]
    have hall : ∀ s ∈ files.filterMap (fun f => symbolOf f.1 f.2), (!jsFalsy s) = true := by
      intro s hs
      obtain ⟨f, _, hsf⟩ := List.mem_filterMap.mp hs
      cases hp : f.2 with
      | none => rw [hp] at hsf; exact absurd hsf (by simp [symbolOf])
      | some svg =>
        rw [hp] at hsf
        have : s = jsTrim (serializeElement (normalizedSymbol (deriveId f.1) svg)) := by
          simpa [symbolOf] using hsf.symm
        rw [this, jsFalsy_trim_serialize]
        rfl
    calc (files.filterMap (id ∘ fun f => symbolOf f.1 f.2)).filter (fun s => !jsFalsy s)
        = (files.filterMap (fun f => symbolOf f.1 f.2)).filter (fun s => !jsFalsy s) := by
          simp [Function.comp]
      _ = files.filterMap (fun f => symbolOf f.1 f.2) := List.filter_eq_self.mpr hall
  rw [generateSvgSpriteOutput, hfrags]
  rfl

/-- C9 (confirmed): for a file with a root svg element the emitted fragment
is the element with tag renamed to `symbol`, the `id` attribute set to the
derived identifier, the `xmlns`, `xmlns:xlink`, `version`, `width` and
`height` attributes removed, every other attribute and the inner markup
preserved, serialized and trimmed. -/
theorem c9_symbol_normalization (file : String) (svg : Element) :
    symbolOf file (some svg)
        = some (jsTrim (serializeElement (normalizedSymbol (deriveId file) svg))) ∧
    (normalizedSymbol (deriveId file) svg).tag = "symbol" ∧
    (normalizedSymbol (deriveId file) svg).inner = svg.inner ∧
    getAttribute (normalizedSymbol (deriveId file) svg).attrs "id" = some (deriveId file) ∧
    getAttribute (normalizedSymbol (deriveId file) svg).attrs "xmlns" = none ∧
    getAttribute (normalizedSymbol (deriveId file) svg).attrs "xmlns:xlink" = none ∧
    getAttribute (normalizedSymbol (deriveId file) svg).attrs "version" = none ∧
    getAttribute (normalizedSymbol (deriveId file) svg).attrs "width" = none ∧
    getAttribute (normalizedSymbol (deriveId file) svg).attrs "height" = none ∧
    (∀ k : String, k ≠ "id" → k ≠ "xmlns" → k ≠ "xmlns:xlink" → k ≠ "version" →
      k ≠ "width" → k ≠ "height" →
      getAttribute (normalizedSymbol (deriveId file) svg).attrs k
        = getAttribute svg.attrs k) := by
  refine ⟨rfl, rfl, rfl, normalizedSymbol_id _ _, ?_, ?_, ?_, ?_, ?_, ?_⟩
  · simp only [normalizedSymbol]
    rw [getAttribute_removeAttribute_ne _ _ _ (by decide),
      getAttribute_removeAttribute_ne _ _ _ (by decide),
      getAttribute_removeAttribute_ne _ _ _ (by decide),
      getAttribute_removeAttribute_ne _ _ _ (by decide),
      getAttribute_removeAttribute_self]
  · simp only [normalizedSymbol]
    rw [getAttribute_removeAttribute_ne _ _ _ (by decide),
      getAttribute_removeAttribute_ne _ _ _ (by decide),
      getAttribute_removeAttribute_ne _ _ _ (by decide),
      getAttribute_removeAttribute_self]
  · simp only [normalizedSymbol]
    rw [getAttribute_removeAttribute_ne _ _ _ (by decide),
      getAttribute_removeAttribute_ne _ _ _ (by decide),
      getAttribute_removeAttribute_self]
  · simp only [normalizedSymbol]
    rw [getAttribute_removeAttribute_ne _ _ _ (by decide),
      getAttribute_removeAttribute_self]
  · simp only [normalizedSymbol]
    rw [getAttribute_removeAttribute_self]
  · intro k hid hx hxl hv hwidth hheight
    simp only [normalizedSymbol]
    rw [getAttribute_removeAttribute_ne _ _ _ hheight,
      getAttribute_removeAttribute_ne _ _ _ hwidth,
      getAttribute_removeAttribute_ne _ _ _ hv,
      getAttribute_removeAttribute_ne _ _ _ hxl,
      getAttribute_removeAttribute_ne _ _ _ hx,
      getAttribute_setAttribute_ne _ _ _ _ hid]

/-- Witness for C9: a concrete icon with `xmlns`, `width` and a `fill`
attribute — the fragment keeps `fill`, gains the derived `id`, and loses the
stripped attributes. -/
theorem c9_witness :
    symbolOf "arrow-right.svg"
        (some { tag := "svg", attrs := [("xmlns", "ns"), ("width", "24"), ("fill", "red")],
                inner := "<p/>" })
      = some "<symbol fill=\"red\" id=\"ArrowRight\"><p/></symbol>" ∧
    getAttribute (normalizedSymbol (deriveId "arrow-right.svg")
        { tag := "svg", attrs := [("xmlns", "ns"), ("width", "24"), ("fill", "red")],
          inner := "<p/>" }).attrs "fill"
      = getAttribute [("xmlns", "ns"), ("width", "24"), ("fill", "red")] "fill" :=
  ⟨by decide,
    (c9_symbol_normalization "arrow-right.svg"
        { tag := "svg", attrs := [("xmlns", "ns"), ("width", "24"), ("fill", "red")],
          inner := "<p/>" }).2.2.2.2.2.2.2.2.2 "fill"
      (by decide) (by decide) (by decide) (by decide) (by decide) (by decide)⟩

/-- C1 (counterexample): in a run where the single discovered file has no
root svg element, the manifest (built from every discovered file) lists
`Close` while the sprite holds no symbol at all, so the two identifier sets
differ. -/
theorem c1_counterexample :
    typeNames [("close.svg", (none : Option Element))] = ["Close"] ∧
    spriteSymbolIds [("close.svg", (none : Option Element))] = [] ∧
    ¬ (∀ x : String, x ∈ typeNames [("close.svg", (none : Option Element))]
        ↔ x ∈ spriteSymbolIds [("close.svg", (none : Option Element))]) := by
  refine ⟨by decide, by decide, fun hall => ?_⟩
  have h1 : "Close" ∈ typeNames [("close.svg", (none : Option Element))] := by decide
  have h2 := (hall "Close").mp h1
  rw [show spriteSymbolIds [("close.svg", (none : Option Element))] = [] from by decide] at h2
  exact List.not_mem_nil _ h2

/-- C1 (amended, confirmed): when every discovered file has a recognizable
root svg element (no skips), the identifier list of the manifest coincides —
elementwise, hence as a set — with the `id` attributes of the sprite's
symbol elements; in a run with skipped files the manifest still lists the
skipped files' identifiers, so it may strictly exceed the sprite's id set. -/
theorem c1_manifest_matches_sprite_ids (files : List (String × Option Element))
    (h : ∀ f ∈ files, f.2.isSome) :
    spriteSymbolIds files = typeNames files := by
  induction files with
  | nil => rfl
  | cons f rest ih =>
    obtain ⟨name, parsed⟩ := f
    cases parsed with
    | none =>
      have := h (name, none) (List.mem_cons_self _ _)
      simp at this
    | some svg =>
      have hrest : ∀ g ∈ rest, g.2.isSome := fun g hg => h g (List.mem_cons_of_mem _ hg)
      have helems : spriteSymbolElements ((name, some svg) :: rest)
          = normalizedSymbol (deriveId name) svg :: spriteSymbolElements rest := by
        simp [spriteSymbolElements, List.filterMap_cons]
      simp only [spriteSymbolIds, typeNames] at *
      rw [helems, List.filterMap_cons]
      simp [normalizedSymbol_id, ih hrest]

/-- Sample input set with every file parseable, for the C1 witness. -/
def sampleFilesAllGood : List (String × Option Element) :=
  [("arrow-right.svg", some { tag := "svg", attrs := [("width", "24")], inner := "" }),
   ("close.svg", some { tag := "svg", attrs := [], inner := "" })]

/-- Witness for C1: a skip-free run where manifest and sprite agree on
`ArrowRight`, `Close`. -/
theorem c1_witness :
    spriteSymbolIds sampleFilesAllGood = typeNames sampleFilesAllGood ∧
    typeNames sampleFilesAllGood = ["ArrowRight", "Close"] :=
  ⟨c1_manifest_matches_sprite_ids sampleFilesAllGood (by decide), by decide⟩

/-- C2 (counterexample): two invocations differing only in the cwd override
create different directories.  With process cwd `/y/c` and output directory
`/x/a/out`, the override `/x/b` makes `mkdir(path.relative(cwd, outputDir))`
create `/y/a/out`, whereas the override `/y/c` creates `/x/a/out`; the file
writes themselves are identical. -/
theorem c2_counterexample :
    (generateIcons none ["x", "icons"] ["x", "a", "out"] none (some ["x", "b"]) ["y", "c"]
        [("close.svg", some { tag := "svg", attrs := [], inner := "" })]
        (fun _ => none)).mkdirTarget = some ["y", "a", "out"] ∧
    (generateIcons none ["x", "icons"] ["x", "a", "out"] none (some ["y", "c"]) ["y", "c"]
        [("close.svg", some { tag := "svg", attrs := [], inner := "" })]
        (fun _ => none)).mkdirTarget = some ["x", "a", "out"] ∧
    (generateIcons none ["x", "icons"] ["x", "a", "out"] none (some ["x", "b"]) ["y", "c"]
        [("close.svg", some { tag := "svg", attrs := [], inner := "" })]
        (fun _ => none)).mkdirTarget
      ≠ (generateIcons none ["x", "icons"] ["x", "a", "out"] none (some ["y", "c"]) ["y", "c"]
        [("close.svg", some { tag := "svg", attrs := [], inner := "" })]
        (fun _ => none)).mkdirTarget ∧
    (generateIcons none ["x", "icons"] ["x", "a", "out"] none (some ["x", "b"]) ["y", "c"]
        [("close.svg", some { tag := "svg", attrs := [], inner := "" })]
        (fun _ => none)).writes
      = (generateIcons none ["x", "icons"] ["x", "a", "out"] none (some ["y", "c"]) ["y", "c"]
        [("close.svg", some { tag := "svg", attrs := [], inner := "" })]
        (fun _ => none)).writes := by
  refine ⟨by decide, by decide, by decide, by decide⟩

/-- C2 (amended, confirmed): invocations differing only in the cwd override
write the same files with the same contents to the same paths, target the
same sprite/manifest output paths, and produce the same warnings; besides
the relative-path notification text, the override influences only the
directory targeted by the `mkdir` step. -/
theorem c2_cwd_invariance (withTypes? : Option Bool) (inputDir outputDir : List String)
    (fileName? : Option String) (cwd1 cwd2 : Option (List String)) (processCwd : List String)
    (files : List (String × Option Element)) (fs0 : Fs) :
    (generateIcons withTypes? inputDir outputDir fileName? cwd1 processCwd files fs0).writes
        = (generateIcons withTypes? inputDir outputDir fileName? cwd2 processCwd files fs0).writes ∧
    (generateIcons withTypes? inputDir outputDir fileName? cwd1 processCwd files fs0).fs
        = (generateIcons withTypes? inputDir outputDir fileName? cwd2 processCwd files fs0).fs ∧
    (generateIcons withTypes? inputDir outputDir fileName? cwd1 processCwd files fs0).spriteTarget
        = (generateIcons withTypes? inputDir outputDir fileName? cwd2 processCwd files fs0).spriteTarget ∧
    (generateIcons withTypes? inputDir outputDir fileName? cwd1 processCwd files fs0).typesTarget
        = (generateIcons withTypes? inputDir outputDir fileName? cwd2 processCwd files fs0).typesTarget ∧
    (generateIcons withTypes? inputDir outputDir fileName? cwd1 processCwd files fs0).warnedNoFiles
        = (generateIcons withTypes? inputDir outputDir fileName? cwd2 processCwd files fs0).warnedNoFiles ∧
    (generateIcons withTypes? inputDir outputDir fileName? cwd1 processCwd files fs0).spriteWarnings
        = (generateIcons withTypes? inputDir outputDir fileName? cwd2 processCwd files fs0).spriteWarnings := by
  cases files with
  | nil => exact ⟨rfl, rfl, rfl, rfl, rfl, rfl⟩
  | cons f rest =>
    have hlen : ¬ (f :: rest).length = 0 := by simp
    cases hw : withTypes?.getD false with
    | false =>
      rw [generateIcons_nonempty_noTypes withTypes? inputDir outputDir fileName? cwd1
          processCwd (f :: rest) fs0 hlen hw,
        generateIcons_nonempty_noTypes withTypes? inputDir outputDir fileName? cwd2
          processCwd (f :: rest) fs0 hlen hw]
      exact ⟨rfl, rfl, rfl, rfl, rfl, rfl⟩
    | true =>
      rw [generateIcons_nonempty_types withTypes? inputDir outputDir fileName? cwd1
          processCwd (f :: rest) fs0 hlen hw,
        generateIcons_nonempty_types withTypes? inputDir outputDir fileName? cwd2
          processCwd (f :: rest) fs0 hlen hw]
      exact ⟨rfl, rfl, rfl, rfl, rfl, rfl⟩

/-- C5 (counterexample): with the sprite filename set to `types.ts` and the
manifest enabled, sprite and manifest share one path, so even an unchanged
second run performs writes (the two artifacts keep overwriting each other). -/
theorem c5_counterexample :
    (generateIcons (some true) ["r", "icons"] ["r", "out"] (some "types.ts") none ["r"]
        [("close.svg", some { tag := "svg", attrs := [], inner := "" })]
        (generateIcons (some true) ["r", "icons"] ["r", "out"] (some "types.ts") none ["r"]
          [("close.svg", some { tag := "svg", attrs := [], inner := "" })]
          (fun _ => none)).fs).writes ≠ [] := by
  decide

/-- C5 (amended, confirmed): provided the sprite filename is not `types.ts`
(so sprite and manifest live at distinct paths — in particular in the
default configuration), a second run on unchanged input performs zero writes
and leaves the filesystem unchanged; moreover the sprite text is independent
of the completion order of the concurrent per-file tasks, so the outputs are
a deterministic function of the discovered file list and contents. -/
theorem c5_idempotence (withTypes? : Option Bool) (inputDir outputDir : List String)
    (fileName? : Option String) (cwd? : Option (List String)) (processCwd : List String)
    (files : List (String × Option Element)) (fs0 : Fs) (order : List Nat)
    (hdistinct : withTypes?.getD false = false ∨ fileName?.getD "sprite.svg" ≠ "types.ts")
    (horder : order.Perm (List.range files.length)) :
    (generateIcons withTypes? inputDir outputDir fileName? cwd? processCwd files
        (generateIcons withTypes? inputDir outputDir fileName? cwd? processCwd files fs0).fs).writes
      = [] ∧
    (generateIcons withTypes? inputDir outputDir fileName? cwd? processCwd files
        (generateIcons withTypes? inputDir outputDir fileName? cwd? processCwd files fs0).fs).fs
      = (generateIcons withTypes? inputDir outputDir fileName? cwd? processCwd files fs0).fs ∧
    spriteFromSchedule files order = generateSvgSpriteOutput files := by
  have hsched : spriteFromSchedule files order = generateSvgSpriteOutput files := by
    unfold spriteFromSchedule
    rw [runTasksInOrder_perm files order horder]
    rfl
  have hmain :
      (generateIcons withTypes? inputDir outputDir fileName? cwd? processCwd files
          (generateIcons withTypes? inputDir outputDir fileName? cwd? processCwd files fs0).fs).writes
        = [] ∧
      (generateIcons withTypes? inputDir outputDir fileName? cwd? processCwd files
          (generateIcons withTypes? inputDir outputDir fileName? cwd? processCwd files fs0).fs).fs
        = (generateIcons withTypes? inputDir outputDir fileName? cwd? processCwd files fs0).fs := by
    cases files with
    | nil => exact ⟨rfl, rfl⟩
    | cons f rest =>
      have hlen : ¬ (f :: rest).length = 0 := by simp
      cases hw : withTypes?.getD false with
      | false =>
        have hfs1 : (generateIcons withTypes? inputDir outputDir fileName? cwd? processCwd
            (f :: rest) fs0).fs
            = (runWrite fs0 (outputDir ++ [fileName?.getD "sprite.svg"])
              (generateSvgSpriteOutput (f :: rest))).1 := by
          rw [generateIcons_nonempty_noTypes withTypes? inputDir outputDir fileName? cwd?
            processCwd (f :: rest) fs0 hlen hw]
        rw [hfs1,
          generateIcons_nonempty_noTypes withTypes? inputDir outputDir fileName? cwd?
            processCwd (f :: rest)
            ((runWrite fs0 (outputDir ++ [fileName?.getD "sprite.svg"])
              (generateSvgSpriteOutput (f :: rest))).1) hlen hw]
        rw [runWrite_noop _ _ _ (runWrite_read_self fs0 _ _)]
        exact ⟨rfl, rfl⟩
      | true =>
        have hne : fileName?.getD "sprite.svg" ≠ "types.ts" := by
          rcases hdistinct with hfalse | hne
          · rw [hw] at hfalse
            exact absurd hfalse (by decide)
          · exact hne
        have hPQ : (outputDir ++ [fileName?.getD "sprite.svg"]) ≠ (outputDir ++ ["types.ts"]) := by
          intro he
          exact hne (by simpa using List.append_cancel_left he)
        have hfs1 : (generateIcons withTypes? inputDir outputDir fileName? cwd? processCwd
            (f :: rest) fs0).fs
            = (runWrite (runWrite fs0 (outputDir ++ [fileName?.getD "sprite.svg"])
                (generateSvgSpriteOutput (f :: rest))).1 (outputDir ++ ["types.ts"])
                (generateTypesOutput (typeNames (f :: rest)))).1 := by
          rw [generateIcons_nonempty_types withTypes? inputDir outputDir fileName? cwd?
            processCwd (f :: rest) fs0 hlen hw]
        have h1 : (runWrite (runWrite fs0 (outputDir ++ [fileName?.getD "sprite.svg"])
            (generateSvgSpriteOutput (f :: rest))).1 (outputDir ++ ["types.ts"])
            (generateTypesOutput (typeNames (f :: rest)))).1
            (outputDir ++ [fileName?.getD "sprite.svg"])
            = some (generateSvgSpriteOutput (f :: rest)) := by
          rw [runWrite_read_other _ _ _ _ hPQ]
          exact runWrite_read_self fs0 _ _
        have h2 : (runWrite (runWrite fs0 (outputDir ++ [fileName?.getD "sprite.svg"])
            (generateSvgSpriteOutput (f :: rest))).1 (outputDir ++ ["types.ts"])
            (generateTypesOutput (typeNames (f :: rest)))).1 (outputDir ++ ["types.ts"])
            = some (generateTypesOutput (typeNames (f :: rest))) :=
          runWrite_read_self _ _ _
        rw [hfs1,
          generateIcons_nonempty_types withTypes? inputDir outputDir fileName? cwd?
            processCwd (f :: rest)
            ((runWrite (runWrite fs0 (outputDir ++ [fileName?.getD "sprite.svg"])
              (generateSvgSpriteOutput (f :: rest))).1 (outputDir ++ ["types.ts"])
              (generateTypesOutput (typeNames (f :: rest)))).1) hlen hw]
        rw [runWrite_noop _ _ _ h1]
        rw [show ((runWrite (runWrite fs0 (outputDir ++ [fileName?.getD "sprite.svg"])
            (generateSvgSpriteOutput (f :: rest))).1 (outputDir ++ ["types.ts"])
            (generateTypesOutput (typeNames (f :: rest)))).1,
            ([] : List (List String × String))).1
            = (runWrite (runWrite fs0 (outputDir ++ [fileName?.getD "sprite.svg"])
            (generateSvgSpriteOutput (f :: rest))).1 (outputDir ++ ["types.ts"])
            (generateTypesOutput (typeNames (f :: rest)))).1 from rfl]
        rw [runWrite_noop _ _ _ h2]
        exact ⟨rfl, rfl⟩
  exact ⟨hmain.1, hmain.2, hsched⟩

/-- Witness for C5: a default-named two-icon run — the second run writes
nothing and an inverted completion order yields the same sprite. -/
theorem c5_witness :
    (generateIcons none ["r", "icons"] ["r", "out"] none none ["r"] sampleFilesAllGood
        (generateIcons none ["r", "icons"] ["r", "out"] none none ["r"] sampleFilesAllGood
          (fun _ => none)).fs).writes = [] ∧
    (generateIcons none ["r", "icons"] ["r", "out"] none none ["r"] sampleFilesAllGood
        (generateIcons none ["r", "icons"] ["r", "out"] none none ["r"] sampleFilesAllGood
          (fun _ => none)).fs).fs
      = (generateIcons none ["r", "icons"] ["r", "out"] none none ["r"] sampleFilesAllGood
          (fun _ => none)).fs ∧
    spriteFromSchedule sampleFilesAllGood [1, 0] = generateSvgSpriteOutput sampleFilesAllGood :=
  c5_idempotence none ["r", "icons"] ["r", "out"] none none ["r"] sampleFilesAllGood
    (fun _ => none) [1, 0] (Or.inl rfl) (by decide)

end IconsSpritesheet
